import Mathlib

/-!
Verification of the Lighthouse batch-runner (`python3-1.py`) and the report
comparison script (`compare_performance.py`).

Modelling conventions of the shallow embedding:
* Python floats are modelled by `ℚ` (all arithmetic in the scripts is exact
  on the inputs the claims mention).
* Python `None` is modelled by `Option`.
* Python strings that require character-level reasoning (the CSV cell
  parsers, filename sanitization) are modelled as `List Char` (`Str`);
  strings only compared wholesale stay `String`.
* Python code that can raise is modelled in `Except`; the error payload is
  the exception text (or `Unit` where the text does not matter).
* `list.sort` (a stable ascending sort) is modelled by `List.insertionSort`,
  which inserts earlier elements before equal later ones and is therefore
  stable in the same sense.
-/

namespace LCP111

/-- Characters of a Python string, for the parsers that inspect characters. -/
abbrev Str := List Char

/-- Characters stripped by Python `str.strip()` (the common whitespace). -/
def isSpacePy (c : Char) : Bool :=
  c = ' ' || c = '\t' || c = '\n' || c = '\r' || c = '\x0b' || c = '\x0c'

/-- Python `str.strip()`: drop leading and trailing whitespace. -/
def pyStrip (s : Str) : Str :=
  ((s.dropWhile isSpacePy).reverse.dropWhile isSpacePy).reverse

/-- Python `str.endswith(suf)`. -/
def endswith (s suf : Str) : Bool :=
  decide (s.reverse.take suf.length = suf.reverse)

/-- ASCII decimal digit test, via code points (`'0'` to `'9'`). -/
def isDigitC (c : Char) : Bool :=
  48 ≤ c.toNat && c.toNat ≤ 57

/-- Numeric value of a decimal digit character. -/
def digitVal (c : Char) : ℕ := c.toNat - 48

/-- Value of a digit string read in base 10. -/
def intVal (ds : Str) : ℕ :=
  ds.foldl (fun a c => a * 10 + digitVal c) 0

/-- Value of the fractional digits after the decimal point. -/
def fracVal (ds : Str) : ℚ :=
  (intVal ds : ℚ) / (10 ^ ds.length)

/-- Body of the float parser, after the optional sign was consumed:
digits, optionally followed by a point and further digits. -/
def pyFloatBody (sgn : ℚ) (t : Str) : Option ℚ :=
  let ip := t.takeWhile isDigitC
  match t.dropWhile isDigitC with
  | [] => if ip = [] then none else some (sgn * intVal ip)
  | '.' :: fp =>
      if fp.all isDigitC && (decide (ip ≠ []) || decide (fp ≠ [])) then
        some (sgn * ((intVal ip : ℚ) + fracVal fp))
      else none
  | _ => none

/-- Python `float(s)` on plain decimal literals: optional sign, then digits
with an optional fractional part.  Returns `none` where `float` raises
`ValueError`.  (Exponents, `inf`/`nan` and underscores are outside every
input the scripts build and are not modelled.) -/
def pyFloat? (s : Str) : Option ℚ :=
  match s with
  | [] => pyFloatBody 1 []
  | c :: r =>
      if c = '-' then pyFloatBody (-1) r
      else if c = '+' then pyFloatBody 1 r
      else pyFloatBody 1 (c :: r)

/-- Python `float(s)` as a fallible computation (raises `ValueError` on a
malformed literal). -/
def pyFloat (s : Str) : Except Unit ℚ :=
  match pyFloat? s with
  | some q => .ok q
  | none => .error ()

/-- `parse_time` of `compare_performance.py` (lines 5-16): empty or `N/A`
cells give `None`; a trailing `ms` divides by 1000, a trailing `s` keeps the
value; a bare cell is parsed, malformed bare cells give `None`.  The `float`
calls in the `ms`/`s` branches are outside the `try`, so a malformed prefix
there raises. -/
def parse_time (value : Str) : Except Unit (Option ℚ) :=
  if value = [] ∨ value = "N/A".data then pure none
  else
    let v := pyStrip value
    if endswith v "ms".data then do
      let q ← pyFloat (v.take (v.length - 2))
      pure (some (q / 1000))
    else if endswith v "s".data then do
      let q ← pyFloat (v.take (v.length - 1))
      pure (some q)
    else
      match pyFloat? v with
      | some q => pure (some q)
      | none => pure none

/-- `parse_score` of `compare_performance.py` (lines 18-22): a malformed
cell is coerced to `0.0` rather than dropped. -/
def parse_score (value : Str) : ℚ :=
  (pyFloat? value).getD 0

/-- One parsed row of a tabular report, as built per URL in `read_csv`
(lines 24-38): `score` and `cls` go through `parse_score` (total), the four
time columns through `parse_time` (optional). -/
structure Row where
  score : ℚ
  lcp : Option ℚ
  tbt : Option ℚ
  fcp : Option ℚ
  cls : ℚ
  ttfb : Option ℚ
  deriving Repr

/-- The per-row body of `read_csv` (lines 28-37), reading the six metric
cells of one CSV row.  A `parse_time` exception aborts the whole read. -/
def readRow (scoreC lcpC tbtC fcpC clsC ttfbC : Str) : Except Unit Row := do
  let lcp ← parse_time lcpC
  let tbt ← parse_time tbtC
  let fcp ← parse_time fcpC
  let ttfb ← parse_time ttfbC
  pure { score := parse_score scoreC, lcp := lcp, tbt := tbt, fcp := fcp,
         cls := parse_score clsC, ttfb := ttfb }

/-- Arithmetic mean, `sum(arr) / len(arr)`. -/
def avgList (xs : List ℚ) : ℚ := xs.sum / xs.length

/-- One iteration of the module-level improvement loop of
`compare_performance.py` (lines 76-88): given the collected old and new
samples of one metric, skip it if no old samples, otherwise report the two
averages, their difference, and the improvement percentage (sign flipped for
the score, `0` on a zero old average). -/
def compare_loop_metric (m : String) (oldTotals newTotals : List ℚ) :
    Option (ℚ × ℚ × ℚ × ℚ) :=
  if oldTotals = [] then none
  else
    let avgOld := avgList oldTotals
    let avgNew := avgList newTotals
    let avgDiff := avgNew - avgOld
    let improvement :=
      if m = "score" then
        if avgOld ≠ 0 then (avgNew - avgOld) / avgOld * 100 else 0
      else
        if avgOld ≠ 0 then (avgOld - avgNew) / avgOld * 100 else 0
    some (avgOld, avgNew, avgDiff, improvement)

/-! ### Thresholds and grading (`python3-1.py` lines 16-36) -/

/-- The grading threshold table `THRESHOLDS` (lines 16-23): per metric name,
the `good` and `ni` (needs-improvement) bounds. -/
def THRESHOLDS : List (String × ℚ × ℚ) :=
  [("LCP", (2500, 4000)),
   ("INP", (200, 500)),
   ("CLS", (1/10, 1/4)),
   ("TBT", (200, 600)),
   ("FCP", (1800, 3000)),
   ("TTFB", (800, 1800))]

/-- `grade` (lines 26-36): `N/A` on an absent value or unknown metric,
otherwise `GOOD` / `NI` / `POOR` by comparison with the two thresholds. -/
def grade (metric : String) (value : Option ℚ) : String :=
  match value with
  | none => "N/A"
  | some v =>
    match THRESHOLDS.lookup metric with
    | none => "N/A"
    | some t => if v ≤ t.1 then "GOOD" else if v ≤ t.2 then "NI" else "POOR"

/-! ### median and percentile (`python3-1.py` lines 39-62) -/

/-- `median` (lines 39-48): drop `None`s, empty gives `None`, otherwise sort
ascending and take the middle element (odd length) or the mean of the two
middle elements (even length). -/
def median (xs : List (Option ℚ)) : Option ℚ :=
  let fs := xs.filterMap id
  if fs = [] then none
  else
    let ys := fs.insertionSort (· ≤ ·)
    let n := ys.length
    let mid := n / 2
    if n % 2 = 1 then some (ys.getD mid 0)
    else some ((ys.getD (mid - 1) 0 + ys.getD mid 0) / 2)

/-- `percentile` (lines 51-62): drop `None`s, empty gives `None`, a single
sample is returned as is, otherwise linear interpolation at index
`(n - 1) * p` between the two neighbouring sorted samples.  `int(idx)` is
modelled by the floor, which agrees with Python's truncation for the
nonnegative indices of every call site (`p = 0.75`). -/
def percentile (xs : List (Option ℚ)) (p : ℚ) : Option ℚ :=
  let fs := xs.filterMap id
  if fs = [] then none
  else
    let ys := fs.insertionSort (· ≤ ·)
    if ys.length = 1 then some (ys.getD 0 0)
    else
      let idx : ℚ := ((ys.length : ℚ) - 1) * p
      let lo : ℕ := (⌊idx⌋).toNat
      let hi : ℕ := min (lo + 1) (ys.length - 1)
      let frac : ℚ := idx - lo
      some (ys.getD lo 0 + (ys.getD hi 0 - ys.getD lo 0) * frac)

/-! ### Output filenames (`python3-1.py` lines 80-86, 474-489, 536-540) -/

/-- Characters collapsed by the `[\/:?&=#]+` substitution in
`sanitize_filename`. -/
def isPunct (c : Char) : Bool :=
  c = '/' || c = ':' || c = '?' || c = '&' || c = '=' || c = '#'

/-- Worker for `collapsePunct`; the flag records whether the previous
character belonged to a punctuation run whose underscore was already
emitted. -/
def collapsePunctAux : Bool → Str → Str
  | _, [] => []
  | inRun, c :: rest =>
      if isPunct c then
        if inRun then collapsePunctAux true rest
        else '_' :: collapsePunctAux true rest
      else c :: collapsePunctAux false rest

/-- `re.sub(r"[\/:?&=#]+", "_", s)`: each maximal run of the punctuation
characters becomes one underscore. -/
def collapsePunct (s : Str) : Str := collapsePunctAux false s

/-- `re.sub(r"^https?://", "", url)`: strip one leading scheme. -/
def stripScheme (url : Str) : Str :=
  if "https://".data.isPrefixOf url then url.drop 8
  else if "http://".data.isPrefixOf url then url.drop 7
  else url

/-- `sanitize_filename` (lines 80-86): strip the scheme, collapse the
punctuation runs, truncate to 150 characters, and append the first 30
characters of the unique suffix (when one is given) after `__`. -/
def sanitize_filename (url : Str) (uniqueSuffix : Str) : Str :=
  if uniqueSuffix ≠ [] then
    (collapsePunct (stripScheme url)).take 150 ++ "__".data ++
      uniqueSuffix.take 30
  else (collapsePunct (stripScheme url)).take 150

/-- The device selector (`--device` is restricted to these two choices). -/
inductive Device where
  | mobile
  | desktop
  deriving DecidableEq

/-- The string value of the device selector. -/
def deviceStr : Device → Str
  | .mobile => "mobile".data
  | .desktop => "desktop".data

/-- Decimal rendering of a natural number (the digits of `f"{n}"`), written
over `Nat.digits` so that injectivity is available. -/
def natDecimal (n : ℕ) : Str :=
  ((Nat.digits 10 n).reverse).map (fun d => Char.ofNat (48 + d))

/-- The `run_id` passed by `run_url_repeats` (line 539): `f"run{i+1}"` when
more than one repeat is configured, empty otherwise. -/
def runId (i repeats : ℕ) : Str :=
  if 1 < repeats then "run".data ++ natDecimal (i + 1) else []

/-- The `unique_id` of `lighthouse_once` (lines 485-487): the device,
extended by `__` and the run id when one is given. -/
def uniqueIdOf (device : Device) (rid : Str) : Str :=
  if rid ≠ [] then deviceStr device ++ "__".data ++ rid else deviceStr device

/-- The report path built by `lighthouse_once` (lines 483-489): the file
name is the sanitized URL plus `.lhr.json`, joined to the output
directory. -/
def lighthouse_once_path (url outDir : Str) (device : Device) (rid : Str) :
    Str :=
  outDir ++ "/".data ++ sanitize_filename url (uniqueIdOf device rid) ++
    ".lhr.json".data

/-! ### Raw report documents and `MetricExtractor`
(`python3-1.py` lines 118-257) -/

/-- Nested key-value documents, as loaded by `json.load`. -/
inductive Json where
  | null
  | bool (b : Bool)
  | num (q : ℚ)
  | str (s : String)
  | arr (elems : List Json)
  | obj (fields : List (String × Json))

/-- Python truthiness of a loaded JSON value: `None`, `False`, `0`, the
empty string, the empty list and the empty dict are falsy. -/
def Json.falsy : Json → Bool
  | .null => true
  | .bool b => !b
  | .num q => q = 0
  | .str s => s = ""
  | .arr l => l.isEmpty
  | .obj l => l.isEmpty

/-- Python `x or {}` for a loaded value. -/
def orEmptyObj (j : Json) : Json := if j.falsy then .obj [] else j

/-- Python `x or []` for a loaded value. -/
def orEmptyArr (j : Json) : Json := if j.falsy then .arr [] else j

/-- Lookup in a dict literal; a missing key gives `None` like `dict.get`. -/
def lookupJ (fields : List (String × Json)) (k : String) : Json :=
  (fields.lookup k).getD .null

/-- Python `x.get(k)`: fine on a dict, raises `AttributeError` on anything
else. -/
def dictGet (j : Json) (k : String) : Except String Json :=
  match j with
  | .obj fields => .ok (lookupJ fields k)
  | _ => .error "AttributeError"

/-- Python `isinstance(v, (int, float))` plus `float(v)`.  `bool` is a
subclass of `int` in Python, so booleans count as numbers. -/
def asNum : Json → Option ℚ
  | .num q => some q
  | .bool b => some (if b then 1 else 0)
  | _ => none

/-- Python `v == 0` on a loaded value (`0`, `0.0` and `False` all equal 0). -/
def eqZeroPy : Json → Bool
  | .num q => q = 0
  | .bool b => !b
  | _ => false

/-- Python `a or b` keeping the loaded values. -/
def jsonOr (a b : Json) : Json := if a.falsy then b else a

/-- The repeated access pattern `(lhr.get("audits") or {}).get(id)`. -/
def getAudit (lhr : Json) (auditId : String) : Except String Json := do
  let audits ← dictGet lhr "audits"
  dictGet (orEmptyObj audits) auditId

/-- `audit_numeric` (lines 118-123): `None` on a falsy audit entry,
otherwise the `numericValue` field when it is a number. -/
def audit_numeric (lhr : Json) (auditId : String) :
    Except String (Option ℚ) := do
  let a ← getAudit lhr auditId
  if a.falsy then pure none
  else do
    let v ← dictGet a "numericValue"
    pure (asNum v)

/-- `audit_items` (lines 126-132): the `details.items` list of an audit,
empty when absent or not a list. -/
def audit_items (lhr : Json) (auditId : String) :
    Except String (List Json) := do
  let a ← getAudit lhr auditId
  let details ← dictGet (orEmptyObj a) "details"
  let items ← dictGet (orEmptyObj details) "items"
  match orEmptyArr items with
  | .arr l => pure l
  | _ => pure []

/-- The reduced LCP element descriptor (lines 160-165). -/
structure LcpElementInfo where
  selector : Json
  nodeLabel : Json
  snippet : Json
  url : Json

/-- One reduced render-blocking resource descriptor (lines 173-178). -/
structure RBItem where
  url : Json
  resourceType : Json
  wastedMs : Json
  totalBytes : Json

/-- The named boolean flags (lines 181-188). -/
structure Flags where
  lcpLazyLoaded : Bool
  needsPrioritizeLcpImage : Bool
  heavyBootup : Bool
  hasLongTasks : Bool
  heavyMainThread : Bool
  lotsUnusedJs : Bool

/-- The `ExtractedMetrics` record returned by `extract_metrics`
(lines 245-257).  The folded record built by `run_url_repeats` carries no
`auditEvidence` key; that is modelled by an empty evidence list, which makes
every evidence lookup `None` exactly like `dict.get` on the absent key. -/
structure Metrics where
  perfScore : Option ℚ
  lcp : Option ℚ
  inp : Option ℚ
  cls : Option ℚ
  tbt : Option ℚ
  fcp : Option ℚ
  ttfb : Option ℚ
  lcpElement : Option LcpElementInfo
  renderBlockingTop : List RBItem
  flags : Flags
  auditEvidence : List (String × Json)

/-- The INP fallback (lines 144-146): prefer the stable audit id, read the
experimental one only when the stable value is absent. -/
def inp_fallback (lhr : Json) (stable : Option ℚ) :
    Except String (Option ℚ) :=
  match stable with
  | some v => pure (some v)
  | none => audit_numeric lhr "experimental-interaction-to-next-paint"

/-- `extract_metrics` (lines 135-257), with each field read in source
order; any access that Python would raise on surfaces as an error. -/
def extract_metrics (lhr : Json) : Except String Metrics := do
  let lcp ← audit_numeric lhr "largest-contentful-paint"
  let cls ← audit_numeric lhr "cumulative-layout-shift"
  let tbt ← audit_numeric lhr "total-blocking-time"
  let fcp ← audit_numeric lhr "first-contentful-paint"
  let ttfb ← audit_numeric lhr "server-response-time"
  let inpStable ← audit_numeric lhr "interaction-to-next-paint"
  let inp ← inp_fallback lhr inpStable
  let cats ← dictGet lhr "categories"
  let perf ← dictGet (orEmptyObj cats) "performance"
  let score ← dictGet (orEmptyObj perf) "score"
  let perfScore := asNum score
  let lcpElemItems ← audit_items lhr "largest-contentful-paint-element"
  let lcpElementInfo : Option LcpElementInfo :=
    match lcpElemItems.head? with
    | some (.obj e) =>
        some { selector := lookupJ e "selector",
               nodeLabel := lookupJ e "nodeLabel",
               snippet := lookupJ e "snippet",
               url := jsonOr (lookupJ e "url")
                  (jsonOr (lookupJ e "sourceURL") (lookupJ e "requestUrl")) }
    | _ => none
  let rbItems ← audit_items lhr "render-blocking-resources"
  let rbTop : List RBItem := (rbItems.take 10).filterMap (fun it =>
    match it with
    | .obj e =>
        some { url := lookupJ e "url", resourceType := lookupJ e "resourceType",
               wastedMs := lookupJ e "wastedMs", totalBytes := lookupJ e "totalBytes" }
    | _ => none)
  let lcpLazy ← getAudit lhr "lcp-lazy-loaded"
  let lcpLazy := orEmptyObj lcpLazy
  let prioritize ← getAudit lhr "prioritize-lcp-image"
  let prioritize := orEmptyObj prioritize
  let bootup ← getAudit lhr "bootup-time"
  let bootup := orEmptyObj bootup
  let longTasks ← getAudit lhr "long-tasks"
  let longTasks := orEmptyObj longTasks
  let mainthread ← getAudit lhr "mainthread-work-breakdown"
  let mainthread := orEmptyObj mainthread
  let unusedJs ← getAudit lhr "unused-javascript"
  let unusedJs := orEmptyObj unusedJs
  let diagnostics ← getAudit lhr "diagnostics"
  let diagnostics := orEmptyObj diagnostics
  let thirdParty ← getAudit lhr "third-party-summary"
  let thirdParty := orEmptyObj thirdParty
  let bootupNum ← dictGet bootup "numericValue"
  let ltDetails ← dictGet longTasks "details"
  let ltItemsJ ← dictGet (orEmptyObj ltDetails) "items"
  let mtNum ← dictGet mainthread "numericValue"
  let ujDetails ← dictGet unusedJs "details"
  let ujSavings ← dictGet (orEmptyObj ujDetails) "overallSavingsMs"
  let diagDetails ← dictGet diagnostics "details"
  let tpDetails ← dictGet thirdParty "details"
  let tpItems ← dictGet (orEmptyObj tpDetails) "items"
  let auditEvidence : List (String × Json) :=
    [("bootup-time", .obj [("numericValue", bootupNum)]),
     ("long-tasks", .obj [("items", ltItemsJ)]),
     ("mainthread-work-breakdown", .obj [("numericValue", mtNum)]),
     ("unused-javascript", .obj [("overallSavingsMs", ujSavings)]),
     ("render-blocking-resources", .obj [("items", .arr (rbItems.take 10))]),
     ("diagnostics", .obj [("details", diagDetails)]),
     ("third-party-summary", .obj [("items", tpItems)])]
  let lazyScore ← dictGet lcpLazy "score"
  let priScore ← dictGet prioritize "score"
  let flags : Flags :=
    { lcpLazyLoaded := eqZeroPy lazyScore,
      needsPrioritizeLcpImage := eqZeroPy priScore,
      heavyBootup := match asNum bootupNum with
        | some q => decide (2000 < q)
        | none => false,
      hasLongTasks := match orEmptyArr ltItemsJ with
        | .arr l => !l.isEmpty
        | _ => false,
      heavyMainThread := match asNum mtNum with
        | some q => decide (4000 < q)
        | none => false,
      lotsUnusedJs := match asNum ujSavings with
        | some q => decide (500 < q)
        | none => false }
  pure { perfScore := perfScore, lcp := lcp, inp := inp, cls := cls,
         tbt := tbt, fcp := fcp, ttfb := ttfb, lcpElement := lcpElementInfo,
         renderBlockingTop := rbTop, flags := flags,
         auditEvidence := auditEvidence }

/-! ### DiagnosticRules (`python3-1.py` lines 260-471) -/

/-- Python `int(q)`: truncation toward zero. -/
def intPy (q : ℚ) : ℤ := if 0 ≤ q then ⌊q⌋ else ⌈q⌉

/-- Decimal rendering of an integer for the detail strings. -/
def intPyStr (n : ℤ) : String :=
  (if n < 0 then "-" else "") ++ Nat.repr n.natAbs

/-- Python `f"{q:.2f}"`.  (Ties at an exact half-cent round away from zero
here where Python's float formatting rounds to even; no value the rules
format hits that case.) -/
def fmt2 (q : ℚ) : String :=
  let n : ℤ := round (q * 100)
  (if n < 0 then "-" else "") ++ Nat.repr (n.natAbs / 100) ++ "." ++
    (if n.natAbs % 100 < 10 then "0" else "") ++ Nat.repr (n.natAbs % 100)

/-- Python `f"{q:.3f}"`, with the same tie caveat as `fmt2`. -/
def fmt3 (q : ℚ) : String :=
  let n : ℤ := round (q * 1000)
  (if n < 0 then "-" else "") ++ Nat.repr (n.natAbs / 1000) ++ "." ++
    (if n.natAbs % 1000 < 10 then "00" else if n.natAbs % 1000 < 100 then "0" else "") ++
    Nat.repr (n.natAbs % 1000)

/-- Display of a loaded JSON value inside an f-string.  Only the string
case is exercised by real reports; the rendering of the other shapes is
abstracted. -/
def pyStrJ : Json → String
  | .str s => s
  | .null => "None"
  | .bool true => "True"
  | .bool false => "False"
  | .num q => intPyStr q.num ++ "/" ++ Nat.repr q.den
  | .arr _ => "list"
  | .obj _ => "dict"

/-- `rb_url = render_blocking[0].get("url") or "未知资源"` (line 439). -/
def rbUrl (it : RBItem) : String :=
  if it.url.falsy then "未知资源" else pyStrJ it.url

/-- One entry of the issue list (the dict built by `add_issue`,
lines 334-350). -/
structure Issue where
  level : String
  metric : String
  title : String
  detail : String
  value : Option ℚ
  auditId : Option String
  evidence : Option Json

/-- The severity rank `level_order.get(level, 99)` (line 469). -/
def levelOrder (s : String) : ℕ :=
  if s = "HIGH" then 0 else if s = "MED" then 1 else if s = "LOW" then 2 else 99

/-- The value component `x["value"] or 0` of the sort key (line 470): both
`None` and `0.0` give `0`. -/
def issueVal (i : Issue) : ℚ := i.value.getD 0

/-- Ascending order on the Python sort key
`(level_order.get(level, 99), -(value or 0))` (line 470). -/
def issueLE (a b : Issue) : Prop :=
  levelOrder a.level < levelOrder b.level ∨
    (levelOrder a.level = levelOrder b.level ∧ issueVal b ≤ issueVal a)

instance : DecidableRel issueLE := fun a b => by
  unfold issueLE; infer_instance

/-- The issue list of `build_issue_list` (lines 328-467) before the final
sort: the fixed rule battery fires in declared order.  Evidence is
`audit_evidence.get(audit_id)`. -/
def raw_issue_list (m : Metrics) : List Issue :=
  let mk (level metric title detail : String) (value : Option ℚ)
      (aid : Option String) : Issue :=
    { level := level, metric := metric, title := title, detail := detail,
      value := value, auditId := aid,
      evidence := match aid with
        | some i => m.auditEvidence.lookup i
        | none => none }
  let issues : List Issue :=
    (match m.lcp with
     | some lcp =>
        if 4000 < lcp then
          [mk "HIGH" "LCP" "LCP 偏慢"
            ("LCP≈" ++ fmt2 (lcp / 1000) ++ "s，需关注资源请求、渲染阻塞、解码绘制与主线程阻塞。")
            (some lcp) (some "largest-contentful-paint")]
        else []
     | none => []) ++
    (match m.ttfb with
     | some ttfb =>
        if 1200 < ttfb then
          [mk "HIGH" "TTFB" "TTFB 偏高（后端/网关/CDN 回源慢）"
            ("TTFB≈" ++ fmt2 (ttfb / 1000) ++ "s，先看 CDN 命中率/回源耗时/接口耗时/重定向链路。")
            (some ttfb) (some "server-response-time")]
        else []
     | none => []) ++
    (match m.inp with
     | some inp =>
        if 500 < inp then
          [mk "HIGH" "INP" "交互响应慢（INP 高）"
            ("INP≈" ++ intPyStr (intPy inp) ++ "ms，排查长任务、主线程阻塞与第三方脚本。")
            (some inp) (some "interaction-to-next-paint")]
        else []
     | none => []) ++
    (match m.cls with
     | some cls =>
        if 1/4 < cls then
          [mk "MED" "CLS" "布局抖动明显（CLS 高）"
            ("CLS≈" ++ fmt3 cls ++ "，检查图片/广告/懒加载占位、字体加载策略。")
            (some cls) (some "cumulative-layout-shift")]
        else []
     | none => []) ++
    (match m.tbt with
     | some tbt =>
        if 600 < tbt then
          [mk "MED" "TBT" "主线程阻塞（TBT 高）"
            ("TBT≈" ++ intPyStr (intPy tbt) ++ "ms，常见原因：bundle 大、初始化重、第三方脚本占用。")
            (some tbt) (some "total-blocking-time")]
        else []
     | none => []) ++
    (match m.fcp with
     | some fcp =>
        if 3000 < fcp then
          [mk "MED" "FCP" "首次内容渲染慢（FCP 高）"
            ("FCP≈" ++ fmt2 (fcp / 1000) ++ "s，关注关键 CSS、首屏资源优先级与阻塞脚本。")
            (some fcp) (some "first-contentful-paint")]
        else []
     | none => []) ++
    (if m.flags.lcpLazyLoaded then
      [mk "HIGH" "LCP" "LCP 元素被懒加载拖慢"
        "首屏最大元素不要 lazy（尤其是首屏大图/大模块）。" m.lcp (some "lcp-lazy-loaded")]
     else []) ++
    (if m.flags.needsPrioritizeLcpImage then
      [mk "HIGH" "LCP" "LCP 图片未被优先加载（缺 preload / 优先级）"
        "对 LCP 图片做 preload / fetchpriority，提高首屏优先级。" m.lcp (some "prioritize-lcp-image")]
     else []) ++
    (match m.renderBlockingTop with
     | it :: _ =>
        [mk "MED" "FCP" "存在渲染阻塞资源（CSS/同步 JS）"
          ("示例阻塞资源：" ++ rbUrl it) none (some "render-blocking-resources")]
     | [] => []) ++
    (if m.flags.heavyBootup then
      [mk "MED" "TBT" "JS 启动/解析执行开销大（bootup-time 高）"
        "拆包、延迟非首屏代码、减少 polyfill/过度转译。" m.tbt (some "bootup-time")]
     else []) ++
    (if m.flags.lotsUnusedJs then
      [mk "LOW" "TBT" "未使用 JS 较多（可减包）"
        "减少首屏下载/解析量，间接改善 LCP/FCP/INP。" none (some "unused-javascript")]
     else [])
  issues

instance : IsTotal Issue issueLE :=
  ⟨fun a b => by
    unfold issueLE
    rcases lt_trichotomy (levelOrder a.level) (levelOrder b.level) with h | h | h
    · exact Or.inl (Or.inl h)
    · rcases le_total (issueVal b) (issueVal a) with hv | hv
      · exact Or.inl (Or.inr ⟨h, hv⟩)
      · exact Or.inr (Or.inr ⟨h.symm, hv⟩)
    · exact Or.inr (Or.inl h)⟩

instance : IsTrans Issue issueLE :=
  ⟨fun a b c hab hbc => by
    unfold issueLE at *
    rcases hab with h1 | ⟨h1, v1⟩ <;> rcases hbc with h2 | ⟨h2, v2⟩
    · exact Or.inl (h1.trans h2)
    · exact Or.inl (h2 ▸ h1)
    · exact Or.inl (by rw [h1]; exact h2)
    · exact Or.inr ⟨h1.trans h2, v2.trans v1⟩⟩

/-- `build_issue_list` (lines 328-471): the fired rules in declared order,
stably sorted by the key `(level_order.get(level, 99), -(value or 0))`
(line 470). -/
def build_issue_list (m : Metrics) : List Issue :=
  (raw_issue_list m).insertionSort issueLE

/-- One entry of the narrower LCP-reasons list (lines 260-325). -/
structure Reason where
  level : String
  title : String
  detail : String

/-- `build_lcp_reasons` (lines 260-325): the narrower LCP-only battery, in
declared order, with a fallback entry when nothing fired and LCP exceeds
4000. -/
def build_lcp_reasons (m : Metrics) : List Reason :=
  let reasons : List Reason :=
    (match m.ttfb with
     | some ttfb =>
        if 1200 < ttfb then
          [{ level := "HIGH", title := "TTFB 偏高（后端/网关/CDN 回源慢）",
             detail := "TTFB≈" ++ fmt2 (ttfb / 1000) ++ "s，先看 CDN 命中率/回源耗时/接口耗时/重定向链路。" }]
        else []
     | none => []) ++
    (if m.flags.lcpLazyLoaded then
      [{ level := "HIGH", title := "LCP 元素被懒加载拖慢",
         detail := "首屏最大元素不要 lazy（尤其是首屏大图/大模块）。" }]
     else []) ++
    (if m.flags.needsPrioritizeLcpImage then
      [{ level := "HIGH", title := "LCP 图片未被优先加载（缺 preload / 优先级）",
         detail := "对 LCP 图片做 preload / fetchpriority，提高首屏优先级，配合压缩裁剪与 CDN。" }]
     else []) ++
    (match m.renderBlockingTop with
     | it :: _ =>
        [{ level := "MED", title := "存在渲染阻塞资源（CSS/同步 JS）",
           detail := "示例阻塞资源：" ++ rbUrl it }]
     | [] => []) ++
    (match m.tbt with
     | some tbt =>
        if 600 < tbt then
          [{ level := "MED", title := "主线程阻塞（TBT 高）推迟渲染与 LCP",
             detail := "TBT≈" ++ intPyStr (intPy tbt) ++ "ms，常见原因：bundle 大、初始化重、第三方脚本占用。" }]
        else []
     | none => []) ++
    (if m.flags.heavyBootup then
      [{ level := "MED", title := "JS 启动/解析执行开销大（bootup-time 高）",
         detail := "拆包、延迟非首屏代码、减少 polyfill/过度转译、第三方脚本延后。" }]
     else []) ++
    (if m.flags.lotsUnusedJs then
      [{ level := "LOW", title := "未使用 JS 较多（可减包）",
         detail := "减少首屏下载/解析量，间接改善 LCP/FCP/INP。" }]
     else [])
  let fallback : List Reason :=
    match m.lcp with
    | some lcp =>
        if 4000 < lcp then
          [{ level := "MED", title := "LCP 偏慢但未命中明确诊断项",
             detail := "建议结合 Performance trace 看：LCP 资源请求、CSS 阻塞、长任务、图片解码绘制阶段。" }]
        else []
    | none => []
  reasons ++ (if reasons.isEmpty then fallback else [])

/-! ### RepeatRunner (`python3-1.py` lines 524-592) -/

/-- The part of a `lighthouse_once` result that the fold consumes: the raw
report path and the extracted metrics.  (The per-run `lcpReasons` and
`issues` are recomputed from the folded metrics, not reused.) -/
structure RunRes where
  lhrPath : String
  metrics : Metrics

/-- The per-metric grade map of a folded result (lines 580-587). -/
structure Grades where
  LCP : String
  INP : String
  CLS : String
  TBT : String
  FCP : String
  TTFB : String

/-- A folded per-URL result (lines 575-592). -/
structure FoldedOk where
  url : String
  device : String
  repeats : ℕ
  metrics : Metrics
  grades : Grades
  lcpReasons : List Reason
  issues : List Issue
  sampleLhr : String
  errors : List String

/-- The outcome of `run_url_repeats`: the all-failed variant (line 550) or
the folded result. -/
inductive UrlResult where
  | failed (url device error : String) (allErrors : List String)
  | ok (r : FoldedOk)

/-- The error string recorded for a failed repeat (`str(e)`, line 543). -/
def errOf : Except String RunRes → Option String
  | .error e => some e
  | .ok _ => none

/-- The all-failed error message (lines 546-550): the first three error
strings joined by `; `, a trailing count of the remaining ones, and
`unknown error` if that is still empty. -/
def allFailedMsg (errors : List String) : String :=
  let em := String.intercalate "; " (errors.take 3)
  let em := if 3 < errors.length then
      em ++ " ... (还有" ++ Nat.repr (errors.length - 3) ++ "个错误)"
    else em
  if em = "" then "unknown error" else em

/-- `run_url_repeats` (lines 524-592).  The external invocations are an
oracle `runOnce : ℕ → Except String RunRes` giving each repeat's outcome
(`lighthouse_once` result or exception text); the loop collects successes
and error strings in order, then either reports the all-failed variant or
folds the successful runs' metrics by per-field median. -/
def run_url_repeats (runOnce : ℕ → Except String RunRes)
    (url device : String) (repeats : ℕ) : UrlResult :=
  let outcomes := (List.range repeats).map runOnce
  let runs := outcomes.filterMap Except.toOption
  let errors := outcomes.filterMap errOf
  match runs with
  | [] => .failed url device (allFailedMsg errors) errors
  | r0 :: _ =>
    let collect : (Metrics → Option ℚ) → List ℚ := fun f =>
      runs.filterMap (fun r => f r.metrics)
    let m : Metrics :=
      { perfScore := median ((collect (·.perfScore)).map some),
        lcp := median ((collect (·.lcp)).map some),
        inp := median ((collect (·.inp)).map some),
        cls := median ((collect (·.cls)).map some),
        tbt := median ((collect (·.tbt)).map some),
        fcp := median ((collect (·.fcp)).map some),
        ttfb := median ((collect (·.ttfb)).map some),
        lcpElement := r0.metrics.lcpElement,
        renderBlockingTop := r0.metrics.renderBlockingTop,
        flags := r0.metrics.flags,
        auditEvidence := [] }
    .ok { url := url, device := device, repeats := repeats, metrics := m,
          grades := { LCP := grade "LCP" m.lcp, INP := grade "INP" m.inp,
                      CLS := grade "CLS" m.cls, TBT := grade "TBT" m.tbt,
                      FCP := grade "FCP" m.fcp, TTFB := grade "TTFB" m.ttfb },
          lcpReasons := build_lcp_reasons m,
          issues := build_issue_list m,
          sampleLhr := r0.lhrPath, errors := errors }

/-! ### Shape conditions under which the extractor cannot raise -/

/-- Characters a parsed float literal can contain. -/
def validChar (c : Char) : Bool :=
  c = '-' || c = '+' || c = '.' || isDigitC c

/-- Whether a loaded value is a dict. -/
def Json.isObjB : Json → Bool
  | .obj _ => true
  | _ => false

/-- A value Python may call `.get` on after an `or {}` guard: absent/falsy
or an actual dict.  A truthy non-dict here is what makes the extractor
raise `AttributeError`. -/
def objOrFalsy (j : Json) : Bool := j.falsy || j.isObjB

/-- The `details` sub-field of an audit entry is dict-or-falsy (needed
where the code does `(entry.get("details") or {}).get(...)`). -/
def detailsOk (entry : Json) : Bool :=
  match orEmptyObj entry with
  | .obj e => objOrFalsy (lookupJ e "details")
  | _ => true

/-- Audit ids read through `audit_numeric`. -/
def auditIdsNumeric : List String :=
  ["largest-contentful-paint", "cumulative-layout-shift",
   "total-blocking-time", "first-contentful-paint", "server-response-time",
   "interaction-to-next-paint", "experimental-interaction-to-next-paint"]

/-- Audit ids whose `details.items` are read. -/
def auditIdsItems : List String :=
  ["largest-contentful-paint-element", "render-blocking-resources",
   "long-tasks", "unused-javascript", "third-party-summary"]

/-- Audit ids read only one level deep for the flags and evidence. -/
def auditIdsFlat : List String :=
  ["lcp-lazy-loaded", "prioritize-lcp-image", "bootup-time",
   "mainthread-work-breakdown", "diagnostics"]

/-- Shape condition on a raw report under which every container the
extractor dereferences is a dict (or absent/falsy, which the `or {}`
guards turn into an empty dict): the report is a dict, `audits` and
`categories` are dict-or-falsy, each accessed audit entry is dict-or-falsy,
the `details` of the item-bearing audits are dict-or-falsy, and
`categories.performance` is dict-or-falsy. -/
def wellShaped (lhr : Json) : Bool :=
  match lhr with
  | .obj kvs =>
    (match orEmptyObj (lookupJ kvs "audits") with
     | .obj akvs =>
        (auditIdsNumeric ++ auditIdsItems ++ auditIdsFlat).all
          (fun i => objOrFalsy (lookupJ akvs i)) &&
        auditIdsItems.all (fun i => detailsOk (lookupJ akvs i))
     | _ => false) &&
    (match orEmptyObj (lookupJ kvs "categories") with
     | .obj ckvs => objOrFalsy (lookupJ ckvs "performance")
     | _ => false)
  | _ => false

/-! ### Concrete example inputs used by the claims -/

/-- Flags with nothing set. -/
def noFlags : Flags :=
  { lcpLazyLoaded := false, needsPrioritizeLcpImage := false,
    heavyBootup := false, hasLongTasks := false, heavyMainThread := false,
    lotsUnusedJs := false }

/-- A folded metrics record with `TTFB = 1500` and `TBT = 700` and nothing
else available. -/
def exampleTTFBTBT : Metrics :=
  { perfScore := none, lcp := none, inp := none, cls := none,
    tbt := some 700, fcp := none, ttfb := some 1500, lcpElement := none,
    renderBlockingTop := [], flags := noFlags, auditEvidence := [] }

/-- An oracle on which every repeat fails. -/
def failOracle : ℕ → Except String RunRes := fun _ => .error "boom"

/-- An oracle on which exactly the second repeat (index 1) fails. -/
def mixedOracle : ℕ → Except String RunRes := fun i =>
  if i = 1 then .error "boom" else .ok ⟨"p0", exampleTTFBTBT⟩

/-! ## Theorems -/

/-- C1: `median` sorts the available samples ascending and returns the
middle element for an odd count, the mean of the two middle elements for an
even count, and `None` for an empty input; in particular `median []` is
absent, `median [5] = 5` and `median [1,2,3,4] = 2.5`.  The sorted order is
characterised abstractly: any ascending-sorted permutation `ys` of the
samples gives the result. -/
theorem C1_median_def :
    (∀ xs ys : List ℚ, ys.Perm xs → ys.Sorted (· ≤ ·) →
      median (xs.map some) =
        if xs.length = 0 then none
        else if xs.length % 2 = 1 then some (ys.getD (xs.length / 2) 0)
        else some ((ys.getD (xs.length / 2 - 1) 0 + ys.getD (xs.length / 2) 0) / 2)) ∧
    median [] = none ∧ median [some 5] = some 5 ∧
    median [some 1, some 2, some 3, some 4] = some (5/2) := by
  have main : ∀ xs ys : List ℚ, ys.Perm xs → ys.Sorted (· ≤ ·) →
      median (xs.map some) =
        if xs.length = 0 then none
        else if xs.length % 2 = 1 then some (ys.getD (xs.length / 2) 0)
        else some ((ys.getD (xs.length / 2 - 1) 0 + ys.getD (xs.length / 2) 0) / 2) := by
    intro xs ys hperm hsort
    have hfs : (xs.map some).filterMap id = xs := by
      rw [List.filterMap_map]
      simp [Function.comp]
    have hsorteq : xs.insertionSort (· ≤ ·) = ys :=
      List.eq_of_perm_of_sorted ((List.perm_insertionSort _ xs).trans hperm.symm)
        (List.sorted_insertionSort _ xs) hsort
    have hlen : ys.length = xs.length := hperm.length_eq
    simp only [median, hfs, hsorteq, hlen]
    rcases eq_or_ne xs [] with rfl | hne
    · simp
    · simp [hne, List.length_eq_zero]
  refine ⟨main, rfl, rfl, ?_⟩
  have h := main [1, 2, 3, 4] [1, 2, 3, 4] (List.Perm.refl _) (by decide)
  simp only [List.map_cons, List.map_nil] at h
  rw [h]; norm_num [List.getD]

/-- C1 witness: the general clause applied to the concrete samples
`[1, 3]` (already sorted, so the permutation is reflexivity). -/
theorem C1_median_def_witness :
    median [some (1 : ℚ), some 3] = some 2 := by
  have h := C1_median_def.1 [1, 3] [1, 3] (List.Perm.refl _) (by decide)
  norm_num at h
  exact h

/-- C2: `grade` maps each of the six metrics to `GOOD` when the value is at
most the good threshold, to the needs-improvement label (spelled `NI` in
the code) when it is at most the secondary threshold, to `POOR` otherwise,
and to `N/A` for an absent value, with thresholds LCP 2500/4000,
INP 200/500, CLS 0.1/0.25, TBT 200/600, FCP 1800/3000, TTFB 800/1800; in
particular LCP 2000 ↦ GOOD, 3000 ↦ NI, 5000 ↦ POOR, absent ↦ N/A. -/
theorem C2_grade_thresholds :
    (∀ v : ℚ, grade "LCP" (some v) =
      if v ≤ 2500 then "GOOD" else if v ≤ 4000 then "NI" else "POOR") ∧
    (∀ v : ℚ, grade "INP" (some v) =
      if v ≤ 200 then "GOOD" else if v ≤ 500 then "NI" else "POOR") ∧
    (∀ v : ℚ, grade "CLS" (some v) =
      if v ≤ 1/10 then "GOOD" else if v ≤ 1/4 then "NI" else "POOR") ∧
    (∀ v : ℚ, grade "TBT" (some v) =
      if v ≤ 200 then "GOOD" else if v ≤ 600 then "NI" else "POOR") ∧
    (∀ v : ℚ, grade "FCP" (some v) =
      if v ≤ 1800 then "GOOD" else if v ≤ 3000 then "NI" else "POOR") ∧
    (∀ v : ℚ, grade "TTFB" (some v) =
      if v ≤ 800 then "GOOD" else if v ≤ 1800 then "NI" else "POOR") ∧
    (∀ name : String, grade name none = "N/A") ∧
    grade "LCP" (some 2000) = "GOOD" ∧ grade "LCP" (some 3000) = "NI" ∧
    grade "LCP" (some 5000) = "POOR" ∧ grade "LCP" none = "N/A" := by
  refine ⟨?_, ?_, ?_, ?_, ?_, ?_, fun _ => rfl, by decide, by decide,
    by decide, rfl⟩ <;>
  · intro v
    simp [grade, THRESHOLDS, List.lookup]

/-- C6: for a non-empty sample list, the 75th percentile is linear
interpolation at index `(n-1)·0.75` of the ascending-sorted samples
(characterised by any sorted permutation `ys`), between the floor and ceil
neighbours, with a single sample returned as is; in particular the 75th
percentile of `[10,20,30,40]` is `32.5`. -/
theorem C6_percentile_def :
    (∀ xs ys : List ℚ, xs ≠ [] → ys.Perm xs → ys.Sorted (· ≤ ·) →
      percentile (xs.map some) (3/4) =
        if ys.length = 1 then some (ys.getD 0 0)
        else
          let idx : ℚ := ((ys.length : ℚ) - 1) * (3/4)
          some (ys.getD (⌊idx⌋).toNat 0 +
            (ys.getD (⌈idx⌉).toNat 0 - ys.getD (⌊idx⌋).toNat 0) *
              (idx - ⌊idx⌋))) ∧
    percentile [some 10, some 20, some 30, some 40] (3/4) = some (65/2) := by
  have main : ∀ xs ys : List ℚ, xs ≠ [] → ys.Perm xs → ys.Sorted (· ≤ ·) →
      percentile (xs.map some) (3/4) =
        if ys.length = 1 then some (ys.getD 0 0)
        else
          let idx : ℚ := ((ys.length : ℚ) - 1) * (3/4)
          some (ys.getD (⌊idx⌋).toNat 0 +
            (ys.getD (⌈idx⌉).toNat 0 - ys.getD (⌊idx⌋).toNat 0) *
              (idx - ⌊idx⌋)) := by
    intro xs ys hne hperm hsort
    have hfs : (xs.map some).filterMap id = xs := by
      rw [List.filterMap_map]
      simp [Function.comp]
    have hsorteq : xs.insertionSort (· ≤ ·) = ys :=
      List.eq_of_perm_of_sorted ((List.perm_insertionSort _ xs).trans hperm.symm)
        (List.sorted_insertionSort _ xs) hsort
    simp only [percentile, hfs, hsorteq]
    rw [if_neg hne]
    by_cases h1 : ys.length = 1
    · simp [h1]
    · rw [if_neg h1, if_neg h1]
      have hys : ys ≠ [] := by
        intro h
        apply hne
        have hl := hperm.length_eq
        rw [h] at hl
        exact List.length_eq_zero.mp hl.symm
      have hlen2 : 2 ≤ ys.length := by
        have := List.length_pos.mpr hys
        omega
      set idx : ℚ := ((ys.length : ℚ) - 1) * (3/4) with hidx
      have hy2 : (2 : ℚ) ≤ (ys.length : ℚ) := by exact_mod_cast hlen2
      have hy1 : (1 : ℚ) ≤ (ys.length : ℚ) := by linarith
      have hidx0 : 0 ≤ idx := by
        rw [hidx]
        have : (0 : ℚ) ≤ (ys.length : ℚ) - 1 := by linarith
        positivity
      have hfl0 : 0 ≤ ⌊idx⌋ := Int.floor_nonneg.mpr hidx0
      have hcast : ((⌊idx⌋.toNat : ℕ) : ℚ) = (⌊idx⌋ : ℚ) := by
        exact_mod_cast congrArg Int.cast (Int.toNat_of_nonneg hfl0)
      by_cases hfrac : idx - (⌊idx⌋ : ℚ) = 0
      · rw [show idx - (⌊idx⌋.toNat : ℚ) = 0 by rw [hcast]; exact hfrac, hfrac]
        ring_nf
      · have hceil : ⌈idx⌉ = ⌊idx⌋ + 1 := by
          have hf : Int.fract idx ≠ 0 := by
            rw [show Int.fract idx = idx - ⌊idx⌋ from rfl]
            exact hfrac
          have h0 := Int.ceil_eq_add_one_sub_fract (α := ℚ) (a := idx) hf
          have h2 : (⌈idx⌉ : ℚ) = (⌊idx⌋ : ℚ) + 1 := by
            rw [h0, show Int.fract idx = idx - ⌊idx⌋ from rfl]; ring
          exact_mod_cast h2
        have hlt : ⌊idx⌋ < (ys.length : ℤ) - 1 := by
          rw [Int.floor_lt]
          push_cast
          nlinarith
        have hmin : min (⌊idx⌋.toNat + 1) (ys.length - 1) = ⌊idx⌋.toNat + 1 := by
          omega
        rw [hmin, hceil]
        have htn : (⌊idx⌋ + 1).toNat = ⌊idx⌋.toNat + 1 := by omega
        rw [htn, hcast]
  refine ⟨main, ?_⟩
  have h := main [10, 20, 30, 40] [10, 20, 30, 40] (by decide)
    (List.Perm.refl _) (by decide)
  simp only [List.map_cons, List.map_nil] at h
  rw [h]
  have hfl : ⌊(((([10, 20, 30, 40] : List ℚ).length : ℚ)) - 1) * (3/4)⌋ = 2 := by
    norm_num
  norm_num [hfl, List.getD]
  have hcl : (⌈(9:ℚ)/4⌉ : ℤ) = 3 := by
    rw [Int.ceil_eq_iff]; norm_num
  rw [hcl]
  norm_num [show Int.toNat 2 = 2 from rfl, show Int.toNat 3 = 3 from rfl]

/-- C6 witness: the general clause applied to the sorted concrete samples
`[10, 20, 30, 40]`, stated as the instantiated conclusion. -/
theorem C6_percentile_def_witness :
    percentile ([(10 : ℚ), 20, 30, 40].map some) (3/4) =
      if ([(10 : ℚ), 20, 30, 40] : List ℚ).length = 1 then
        some ([(10 : ℚ), 20, 30, 40].getD 0 0)
      else
        let idx : ℚ := ((([(10 : ℚ), 20, 30, 40] : List ℚ).length : ℚ) - 1) * (3/4)
        some ([(10 : ℚ), 20, 30, 40].getD (⌊idx⌋).toNat 0 +
          ([(10 : ℚ), 20, 30, 40].getD (⌈idx⌉).toNat 0 -
           [(10 : ℚ), 20, 30, 40].getD (⌊idx⌋).toNat 0) * (idx - ⌊idx⌋)) :=
  C6_percentile_def.1 [10, 20, 30, 40] [10, 20, 30, 40]
    (by decide) (List.Perm.refl _) (by decide)

/-- C7: the ReportDiffer improvement loop reports, for a metric with a
non-empty old sample set, the improvement percentage
`(newAvg − oldAvg)/oldAvg · 100` for the score, `(oldAvg − newAvg)/oldAvg
· 100` for every other metric, and `0` whenever the old average is `0`; in
particular old TTFB 2.0 vs new 1.0 gives 50 and old score 0.5 vs 0.6 gives
20 (see the witness). -/
theorem C7_improvement :
    (∀ olds news : List ℚ, olds ≠ [] → avgList olds ≠ 0 →
      compare_loop_metric "score" olds news =
        some (avgList olds, avgList news, avgList news - avgList olds,
          (avgList news - avgList olds) / avgList olds * 100)) ∧
    (∀ m : String, m ≠ "score" → ∀ olds news : List ℚ, olds ≠ [] →
      avgList olds ≠ 0 →
      compare_loop_metric m olds news =
        some (avgList olds, avgList news, avgList news - avgList olds,
          (avgList olds - avgList news) / avgList olds * 100)) ∧
    (∀ (m : String) (olds news : List ℚ), olds ≠ [] → avgList olds = 0 →
      compare_loop_metric m olds news =
        some (avgList olds, avgList news, avgList news - avgList olds, 0)) := by
  refine ⟨?_, ?_, ?_⟩
  · intro olds news hne havg
    simp [compare_loop_metric, hne, havg]
  · intro m hm olds news hne havg
    simp [compare_loop_metric, hne, hm, havg]
  · intro m olds news hne havg
    by_cases hm : m = "score" <;>
      simp [compare_loop_metric, hne, hm, havg]

/-- C7 witness: the three clauses at the concrete averages of the claim:
TTFB 2.0 → 1.0 gives 50 %, score 0.5 → 0.6 gives 20 %, and a zero old
average gives 0 %. -/
theorem C7_improvement_witness :
    compare_loop_metric "ttfb" [2] [1] = some (2, 1, -1, 50) ∧
    compare_loop_metric "score" [1/2] [3/5] = some (1/2, 3/5, 1/10, 20) ∧
    compare_loop_metric "lcp" [0] [5] = some (0, 5, 5, 0) := by
  refine ⟨?_, ?_, ?_⟩
  · have h := C7_improvement.2.1 "ttfb" (by decide) [2] [1] (by decide)
      (by norm_num [avgList])
    rw [h]; norm_num [avgList]
  · have h := C7_improvement.1 [1/2] [3/5] (by decide)
      (by norm_num [avgList])
    rw [h]; norm_num [avgList]
  · have h := C7_improvement.2.2 "lcp" [0] [5] (by decide)
      (by norm_num [avgList])
    rw [h]; norm_num [avgList]

/-! ### Support lemmas about the cell parsers -/

theorem pyFloatBody_chars {sgn q : ℚ} {t : Str}
    (h : pyFloatBody sgn t = some q) :
    ∀ c ∈ t, (decide (c = '.') || isDigitC c) = true := by
  intro c hc
  rw [← List.takeWhile_append_dropWhile (p := isDigitC) (l := t)] at hc
  rcases List.mem_append.mp hc with h1 | h2
  · simp [List.mem_takeWhile_imp h1]
  · simp only [pyFloatBody] at h
    split at h
    · rename_i heq
      rw [heq] at h2
      cases h2
    · rename_i fp heq
      rw [heq] at h2
      split at h
      · rename_i hall
        rcases List.mem_cons.mp h2 with rfl | h3
        · simp
        · simp only [Bool.and_eq_true] at hall
          simp [List.all_eq_true.mp hall.1 c h3]
      · cases h
    · cases h

theorem pyFloat?_chars {q : ℚ} {s : Str} (h : pyFloat? s = some q) :
    ∀ c ∈ s, validChar c = true := by
  cases s with
  | nil => intro c hc; cases hc
  | cons c0 r =>
    intro c hc
    simp only [pyFloat?] at h
    by_cases hm : c0 = '-'
    · rw [if_pos hm] at h
      rcases List.mem_cons.mp hc with rfl | hcr
      · simp [validChar, hm]
      · have := pyFloatBody_chars h c hcr
        simp only [validChar, Bool.or_eq_true] at this ⊢
        tauto
    · rw [if_neg hm] at h
      by_cases hp : c0 = '+'
      · rw [if_pos hp] at h
        rcases List.mem_cons.mp hc with rfl | hcr
        · simp [validChar, hp]
        · have := pyFloatBody_chars h c hcr
          simp only [validChar, Bool.or_eq_true] at this ⊢
          tauto
      · rw [if_neg hp] at h
        have := pyFloatBody_chars h c hc
        simp only [validChar, Bool.or_eq_true] at this ⊢
        tauto

theorem validChar_props {c : Char} (h : validChar c = true) :
    isSpacePy c = false ∧ c ≠ 's' ∧ c ≠ 'm' ∧ c ≠ 'N' := by
  simp only [validChar, Bool.or_eq_true, decide_eq_true_eq] at h
  rcases h with ((rfl | rfl) | rfl) | hd
  · exact ⟨rfl, by decide, by decide, by decide⟩
  · exact ⟨rfl, by decide, by decide, by decide⟩
  · exact ⟨rfl, by decide, by decide, by decide⟩
  · refine ⟨?_, ?_, ?_, ?_⟩
    · by_contra hs
      simp only [Bool.not_eq_false, isSpacePy, Bool.or_eq_true,
        decide_eq_true_eq] at hs
      rcases hs with ((((rfl | rfl) | rfl) | rfl) | rfl) | rfl <;>
        revert hd <;> decide
    · rintro rfl; revert hd; decide
    · rintro rfl; revert hd; decide
    · rintro rfl; revert hd; decide

theorem pyFloat?_ne_nil {q : ℚ} {s : Str} (h : pyFloat? s = some q) :
    s ≠ [] := by
  rintro rfl
  simp [pyFloat?, pyFloatBody] at h

theorem dropWhile_eq_self_of {p : Char → Bool} {l : Str}
    (h : ∀ c ∈ l, p c = false) : l.dropWhile p = l := by
  cases l with
  | nil => rfl
  | cons a t => simp [List.dropWhile_cons, h a (List.mem_cons_self a t)]

theorem pyStrip_eq_self {s : Str} (h : ∀ c ∈ s, isSpacePy c = false) :
    pyStrip s = s := by
  unfold pyStrip
  rw [dropWhile_eq_self_of h, dropWhile_eq_self_of, List.reverse_reverse]
  intro c hc
  exact h c (List.mem_reverse.mp hc)

theorem endswith_append (s t : Str) : endswith (s ++ t) t = true := by
  simp only [endswith, List.reverse_append, decide_eq_true_eq]
  rw [show t.length = t.reverse.length by simp, List.take_left]

theorem endswith_s_of_ms {v : Str}
    (h : endswith v "ms".data = true) : endswith v "s".data = true := by
  simp only [endswith, decide_eq_true_eq] at h ⊢
  replace h : v.reverse.take 2 = ['s', 'm'] := h
  show v.reverse.take 1 = ['s']
  have h1 : v.reverse.take 1 = (v.reverse.take 2).take 1 := by
    rw [List.take_take]
    norm_num
  rw [h1, h]
  rfl

theorem not_endswith_ms_append_s {s : Str}
    (hs : ∀ c ∈ s, validChar c = true) :
    endswith (s ++ "s".data) "ms".data = false := by
  rcases List.eq_nil_or_concat s with rfl | ⟨l, b, rfl⟩
  · rfl
  · have hb := hs b (by simp [List.concat_eq_append])
    have hbm : b ≠ 'm' := (validChar_props hb).2.2.1
    simp only [endswith, decide_eq_false_iff_not, List.concat_eq_append]
    intro hcontra
    rw [show ((l ++ [b]) ++ "s".data).reverse = 's' :: b :: l.reverse by
      simp] at hcontra
    replace hcontra : (['s', b] : Str) = ['s', 'm'] := hcontra
    simp only [List.cons.injEq] at hcontra
    exact hbm hcontra.2.1

theorem not_endswith_bare {s : Str}
    (hs : ∀ c ∈ s, validChar c = true) :
    endswith s "s".data = false ∧ endswith s "ms".data = false := by
  rcases List.eq_nil_or_concat s with rfl | ⟨l, b, rfl⟩
  · exact ⟨rfl, rfl⟩
  · have hb := hs b (by simp [List.concat_eq_append])
    have hbs : b ≠ 's' := (validChar_props hb).2.1
    constructor
    · simp only [endswith, decide_eq_false_iff_not, List.concat_eq_append]
      intro hcontra
      rw [show (l ++ [b]).reverse = b :: l.reverse by simp] at hcontra
      replace hcontra : ([b] : Str) = ['s'] := hcontra
      simp only [List.cons.injEq] at hcontra
      exact hbs hcontra.1
    · simp only [endswith, decide_eq_false_iff_not, List.concat_eq_append]
      intro hcontra
      rw [show (l ++ [b]).reverse = b :: l.reverse by simp] at hcontra
      replace hcontra : (b :: l.reverse.take 1 : Str) = ['s', 'm'] := hcontra
      simp only [List.cons.injEq] at hcontra
      exact hbs hcontra.1

theorem append_ne_NA₂ {s : Str} : s ++ "ms".data ≠ "N/A".data := by
  intro h
  have h2 := congrArg List.reverse h
  simp [List.reverse_append] at h2

theorem append_ne_NA₁ {s : Str} : s ++ "s".data ≠ "N/A".data := by
  intro h
  have h2 := congrArg List.reverse h
  simp [List.reverse_append] at h2

theorem take_append_sub (s t : Str) :
    (s ++ t).take ((s ++ t).length - t.length) = s := by
  rw [List.length_append, Nat.add_sub_cancel]
  exact List.take_left s t

/-- C10: `parse_time` normalizes every cell to seconds: a well-formed
numeric string (one the float parser accepts) followed by `ms` gives the
number divided by 1000, followed by `s` gives the number, a bare well-formed
numeric string is returned unchanged, and an empty cell or `N/A` is absent. -/
theorem C10_parse_time_normalizes :
    (∀ (s : Str) (q : ℚ), pyFloat? s = some q →
      parse_time (s ++ "ms".data) = .ok (some (q / 1000)) ∧
      parse_time (s ++ "s".data) = .ok (some q) ∧
      parse_time s = .ok (some q)) ∧
    parse_time [] = .ok none ∧
    parse_time "N/A".data = .ok none := by
  refine ⟨?_, rfl, rfl⟩
  intro s q hq
  have hchars := pyFloat?_chars hq
  have hnospace : ∀ c ∈ s, isSpacePy c = false :=
    fun c hc => (validChar_props (hchars c hc)).1
  refine ⟨?_, ?_, ?_⟩
  · have hcond : ¬(s ++ "ms".data = [] ∨ s ++ "ms".data = "N/A".data) := by
      push_neg
      exact ⟨by simp, append_ne_NA₂⟩
    have hstrip : pyStrip (s ++ "ms".data) = s ++ "ms".data := by
      apply pyStrip_eq_self
      intro c hc
      rcases List.mem_append.mp hc with h1 | h2
      · exact hnospace c h1
      · replace h2 : c ∈ ['m', 's'] := h2
        rcases List.mem_cons.mp h2 with rfl | h3
        · rfl
        · rcases List.mem_cons.mp h3 with rfl | h4
          · rfl
          · cases h4
    have htake : (s ++ "ms".data).take ((s ++ "ms".data).length - 2) = s :=
      take_append_sub s "ms".data
    simp only [parse_time]
    rw [if_neg hcond]
    simp only [hstrip]
    rw [endswith_append s "ms".data, if_pos rfl, htake]
    simp only [pyFloat, hq]
    rfl
  · have hcond : ¬(s ++ "s".data = [] ∨ s ++ "s".data = "N/A".data) := by
      push_neg
      exact ⟨by simp, append_ne_NA₁⟩
    have hstrip : pyStrip (s ++ "s".data) = s ++ "s".data := by
      apply pyStrip_eq_self
      intro c hc
      rcases List.mem_append.mp hc with h1 | h2
      · exact hnospace c h1
      · replace h2 : c ∈ ['s'] := h2
        rcases List.mem_cons.mp h2 with rfl | h3
        · rfl
        · cases h3
    have htake : (s ++ "s".data).take ((s ++ "s".data).length - 1) = s :=
      take_append_sub s "s".data
    simp only [parse_time]
    rw [if_neg hcond]
    simp only [hstrip]
    rw [not_endswith_ms_append_s hchars, if_neg Bool.false_ne_true]
    rw [endswith_append s "s".data, if_pos rfl, htake]
    simp only [pyFloat, hq]
    rfl
  · have hna : s ≠ "N/A".data := by
      intro h
      have hNmem : ('N' : Char) ∈ s := by
        rw [h]; exact List.Mem.head _
      have := hchars 'N' hNmem
      revert this
      decide
    have hcond : ¬(s = [] ∨ s = "N/A".data) := by
      push_neg
      exact ⟨pyFloat?_ne_nil hq, hna⟩
    have hstrip : pyStrip s = s := pyStrip_eq_self hnospace
    obtain ⟨hs1, hs2⟩ := not_endswith_bare hchars
    simp only [parse_time]
    rw [if_neg hcond]
    simp only [hstrip]
    rw [hs2, if_neg Bool.false_ne_true, hs1, if_neg Bool.false_ne_true, hq]
    rfl

/-- C10 witness: the three clauses at the well-formed numeric prefix `25`,
whose parse is discharged by computation. -/
theorem C10_parse_time_normalizes_witness :
    parse_time ("25".data ++ "ms".data) = .ok (some ((25 : ℚ) / 1000)) ∧
    parse_time ("25".data ++ "s".data) = .ok (some 25) ∧
    parse_time "25".data = .ok (some 25) := by
  have hq0 : pyFloat? "25".data = some (1 * ((25 : ℕ) : ℚ)) := rfl
  have hq : pyFloat? "25".data = some 25 := by rw [hq0]; norm_num
  exact C10_parse_time_normalizes.1 "25".data 25 hq

/-- C8 counterexample: the claim "a malformed or missing value ... is never
fatal: no malformed cell aborts the comparison" fails on the code.  A
malformed LCP cell `abcms` makes `parse_time` call `float("abc")` outside
its `try`, so reading the row raises and the comparison aborts; and a
malformed score cell is coerced to `0.0`, i.e. included in the sample set
rather than excluded. -/
theorem C8_counterexample :
    (readRow "0.5".data "abcms".data "1s".data "2s".data "0.1".data
        "3s".data).isOk = false ∧
    parse_score "abc".data = 0 :=
  ⟨rfl, rfl⟩

/-- C8 (amended): a cell that is empty, `N/A`, or malformed without a
trailing `s` is excluded from that metric's time sample individually
(`parse_time` returns an absent value, not an exception), and such a
dropped cell does not stop the rest of its row from contributing: the row
read succeeds with the dropped metric absent and every other metric intact.
(A malformed cell that does end in `s` or `ms` aborts, and malformed
score/CLS cells are coerced to 0 — see the counterexample.) -/
theorem C8_partial_row_tolerance :
    (∀ s : Str,
      s = [] ∨ s = "N/A".data ∨
        (pyFloat? (pyStrip s) = none ∧ endswith (pyStrip s) "s".data = false) →
      parse_time s = .ok none) ∧
    (∀ (scoreC lcpC tbtC fcpC clsC ttfbC : Str) (vt vf vtt : Option ℚ),
      (lcpC = [] ∨ lcpC = "N/A".data ∨
        (pyFloat? (pyStrip lcpC) = none ∧
          endswith (pyStrip lcpC) "s".data = false)) →
      parse_time tbtC = .ok vt →
      parse_time fcpC = .ok vf →
      parse_time ttfbC = .ok vtt →
      readRow scoreC lcpC tbtC fcpC clsC ttfbC =
        .ok { score := parse_score scoreC, lcp := none, tbt := vt, fcp := vf,
              cls := parse_score clsC, ttfb := vtt }) := by
  have part1 : ∀ s : Str,
      s = [] ∨ s = "N/A".data ∨
        (pyFloat? (pyStrip s) = none ∧ endswith (pyStrip s) "s".data = false) →
      parse_time s = .ok none := by
    intro s h
    by_cases h0 : s = [] ∨ s = "N/A".data
    · rcases h0 with rfl | rfl <;> rfl
    · rcases h with rfl | rfl | ⟨hnone, hes⟩
      · exact absurd (Or.inl rfl) h0
      · exact absurd (Or.inr rfl) h0
      · have hms : endswith (pyStrip s) "ms".data = false := by
          by_contra hc
          simp only [Bool.not_eq_false] at hc
          rw [endswith_s_of_ms hc] at hes
          cases hes
        simp only [parse_time]
        rw [if_neg h0, hms, if_neg Bool.false_ne_true, hes,
          if_neg Bool.false_ne_true, hnone]
        rfl
  refine ⟨part1, ?_⟩
  intro scoreC lcpC tbtC fcpC clsC ttfbC vt vf vtt hdrop ht hf htt
  simp only [readRow]
  rw [part1 lcpC hdrop, ht, hf, htt]
  rfl

/-- C8 witness: a row with a malformed bare LCP cell and empty/`N/A` time
cells still reads successfully, with exactly those samples absent. -/
theorem C8_partial_row_tolerance_witness :
    readRow "abc".data "abc".data [] "N/A".data "abc".data [] =
      .ok { score := parse_score "abc".data, lcp := none, tbt := none,
            fcp := none, cls := parse_score "abc".data, ttfb := none } :=
  C8_partial_row_tolerance.2 "abc".data "abc".data [] "N/A".data "abc".data []
    none none none (Or.inr (Or.inr ⟨rfl, rfl⟩)) rfl rfl rfl

/-! ### Support lemmas about decimal run ids -/

theorem digitChar_inj {a b : ℕ} (ha : a < 10) (hb : b < 10)
    (h : Char.ofNat (48 + a) = Char.ofNat (48 + b)) : a = b := by
  interval_cases a <;> interval_cases b <;>
    first
      | rfl
      | (revert h; decide)

theorem mapDigitChar_inj : ∀ {l₁ l₂ : List ℕ}, (∀ d ∈ l₁, d < 10) →
    (∀ d ∈ l₂, d < 10) →
    l₁.map (fun d => Char.ofNat (48 + d)) =
      l₂.map (fun d => Char.ofNat (48 + d)) →
    l₁ = l₂ := by
  intro l₁
  induction l₁ with
  | nil =>
    intro l₂ _ _ h
    cases l₂ with
    | nil => rfl
    | cons b t => simp at h
  | cons a t ih =>
    intro l₂ h1 h2 h
    cases l₂ with
    | nil => simp at h
    | cons b t₂ =>
      simp only [List.map_cons, List.cons.injEq] at h
      have hab := digitChar_inj (h1 a (by simp)) (h2 b (by simp)) h.1
      subst hab
      rw [ih (fun d hd => h1 d (by simp [hd]))
        (fun d hd => h2 d (by simp [hd])) h.2]

theorem natDecimal_inj {m n : ℕ} (h : natDecimal m = natDecimal n) :
    m = n := by
  unfold natDecimal at h
  have h2 := mapDigitChar_inj
    (fun d hd => Nat.digits_lt_base (by norm_num) (List.mem_reverse.mp hd))
    (fun d hd => Nat.digits_lt_base (by norm_num) (List.mem_reverse.mp hd)) h
  have h3 : Nat.digits 10 m = Nat.digits 10 n := List.reverse_injective h2
  have h4 := congrArg (Nat.ofDigits 10) h3
  simpa [Nat.ofDigits_digits] using h4

theorem natDecimal_length_le {n k : ℕ} (h : n < 10 ^ k) :
    (natDecimal n).length ≤ k := by
  unfold natDecimal
  rw [List.length_map, List.length_reverse]
  rcases Nat.eq_zero_or_pos n with rfl | hpos
  · simp
  · rw [Nat.digits_len 10 n (by norm_num) hpos.ne']
    have := Nat.log_lt_of_lt_pow hpos.ne' h
    omega

/-- C9 counterexample: the claim that paths of distinct (URL, device,
repeat) triples never collide fails: `sanitize_filename` is lossy, so the
distinct URLs `http://a/b` and `http://a_b` produce the same report path
for the same device and repeat index. -/
theorem C9_counterexample :
    ("http://a/b".data : Str) ≠ "http://a_b".data ∧
    lighthouse_once_path "http://a/b".data "out".data Device.mobile
        (runId 0 1) =
      lighthouse_once_path "http://a_b".data "out".data Device.mobile
        (runId 0 1) := by
  exact ⟨by decide, rfl⟩

/-- C9 (amended): for one fixed URL (and the batch's fixed device), the
report paths of distinct repeat indices never collide when more than one
repeat is configured (repeat indices bounded by `10^17` so that the 30
character suffix truncation cannot bite); distinct URLs may collide, see
the counterexample. -/
theorem C9_distinct_repeat_paths :
    ∀ (url outDir : Str) (device : Device) (repeats i j : ℕ),
      1 < repeats → i < 10 ^ 17 → j < 10 ^ 17 → i ≠ j →
      lighthouse_once_path url outDir device (runId i repeats) ≠
        lighthouse_once_path url outDir device (runId j repeats) := by
  intro url outDir device repeats i j hrep hi hj hij heq
  apply hij
  unfold runId at heq
  rw [if_pos hrep, if_pos hrep] at heq
  unfold lighthouse_once_path at heq
  have hsan : sanitize_filename url
      (uniqueIdOf device ("run".data ++ natDecimal (i + 1))) =
      sanitize_filename url
        (uniqueIdOf device ("run".data ++ natDecimal (j + 1))) :=
    List.append_cancel_left (List.append_cancel_right heq)
  have huidne : ∀ rid : Str,
      uniqueIdOf device rid = deviceStr device ++ "__".data ++ rid ∨
        uniqueIdOf device rid = deviceStr device := by
    intro rid
    unfold uniqueIdOf
    by_cases h : rid ≠ []
    · rw [if_pos h]; exact Or.inl rfl
    · rw [if_neg h]; exact Or.inr rfl
  have hrid1 : ("run".data ++ natDecimal (i + 1) : Str) ≠ [] := by simp
  have hrid2 : ("run".data ++ natDecimal (j + 1) : Str) ≠ [] := by simp
  have huid1 : uniqueIdOf device ("run".data ++ natDecimal (i + 1)) =
      deviceStr device ++ "__".data ++ ("run".data ++ natDecimal (i + 1)) := by
    unfold uniqueIdOf; rw [if_pos hrid1]
  have huid2 : uniqueIdOf device ("run".data ++ natDecimal (j + 1)) =
      deviceStr device ++ "__".data ++ ("run".data ++ natDecimal (j + 1)) := by
    unfold uniqueIdOf; rw [if_pos hrid2]
  rw [huid1, huid2] at hsan
  have hu1ne : (deviceStr device ++ "__".data ++
      ("run".data ++ natDecimal (i + 1)) : Str) ≠ [] := by
    cases device <;> simp [deviceStr]
  have hu2ne : (deviceStr device ++ "__".data ++
      ("run".data ++ natDecimal (j + 1)) : Str) ≠ [] := by
    cases device <;> simp [deviceStr]
  unfold sanitize_filename at hsan
  rw [if_pos hu1ne, if_pos hu2ne] at hsan
  have htak : (deviceStr device ++ "__".data ++
        ("run".data ++ natDecimal (i + 1))).take 30 =
      (deviceStr device ++ "__".data ++
        ("run".data ++ natDecimal (j + 1))).take 30 :=
    List.append_cancel_left (List.append_cancel_left
      (by simpa only [List.append_assoc] using hsan))
  have hdigits : ∀ n : ℕ, n < 10 ^ 17 →
      (natDecimal (n + 1)).length ≤ 18 := by
    intro n hn
    apply natDecimal_length_le
    have h17 : (10 : ℕ) ^ 17 < 10 ^ 18 := by norm_num
    omega
  have hdev : (deviceStr device).length ≤ 7 := by
    cases device <;> decide
  have hlen : ∀ n : ℕ, n < 10 ^ 17 →
      (deviceStr device ++ "__".data ++
        ("run".data ++ natDecimal (n + 1))).length ≤ 30 := by
    intro n hn
    have := hdigits n hn
    simp only [List.length_append, List.length_cons, List.length_nil]
    omega
  rw [List.take_of_length_le (hlen i hi), List.take_of_length_le (hlen j hj)]
    at htak
  have hdec : natDecimal (i + 1) = natDecimal (j + 1) := by
    have h5 := List.append_cancel_left
      (by simpa only [List.append_assoc] using htak)
    exact List.append_cancel_left (List.append_cancel_left h5)
  have := natDecimal_inj hdec
  omega

/-- C9 witness: the amended clause applied to repeat indices 0 and 1 of a
three-repeat batch on one URL. -/
theorem C9_distinct_repeat_paths_witness :
    lighthouse_once_path "http://x".data "out".data Device.mobile
        (runId 0 3) ≠
      lighthouse_once_path "http://x".data "out".data Device.mobile
        (runId 1 3) :=
  C9_distinct_repeat_paths "http://x".data "out".data Device.mobile 3 0 1
    (by decide) (by norm_num) (by norm_num) (by decide)

/-! ### Support lemmas: the issue order and stability of the sort -/

theorem filter_orderedInsert_pos {α : Type*} (r : α → α → Prop)
    [DecidableRel r] (p : α → Bool) (a : α) (hpa : p a = true) :
    ∀ l : List α, (∀ b ∈ l, p b = true → r a b) →
      (l.orderedInsert r a).filter p = a :: l.filter p := by
  intro l
  induction l with
  | nil => intro _; simp [List.orderedInsert, hpa]
  | cons b t ih =>
    intro hl
    by_cases hr : r a b
    · simp [List.orderedInsert, if_pos hr, List.filter_cons, hpa]
    · have hpb : p b = false := by
        rcases Bool.eq_false_or_eq_true (p b) with h | h
        · exact absurd (hl b (List.mem_cons_self b t) h) hr
        · exact h
      simp only [List.orderedInsert, if_neg hr, List.filter_cons, hpb]
      rw [ih (fun x hx hpx => hl x (List.mem_cons_of_mem b hx) hpx)]
      simp

theorem filter_orderedInsert_neg {α : Type*} (r : α → α → Prop)
    [DecidableRel r] (p : α → Bool) (a : α) (hpa : p a = false) :
    ∀ l : List α, (l.orderedInsert r a).filter p = l.filter p := by
  intro l
  induction l with
  | nil => simp [List.orderedInsert, hpa]
  | cons b t ih =>
    by_cases hr : r a b
    · simp [List.orderedInsert, if_pos hr, List.filter_cons, hpa]
    · simp only [List.orderedInsert, if_neg hr, List.filter_cons, ih]

/-- A stable sort leaves the subsequence of entries with any fixed sort key
unchanged: filtering by a predicate on which the order is total (any two
matching entries relate both ways) commutes with `insertionSort`. -/
theorem filter_insertionSort {α : Type*} (r : α → α → Prop) [DecidableRel r]
    (p : α → Bool) (hcomp : ∀ a b, p a = true → p b = true → r a b) :
    ∀ l : List α, (l.insertionSort r).filter p = l.filter p := by
  intro l
  induction l with
  | nil => rfl
  | cons a t ih =>
    simp only [List.insertionSort]
    rcases Bool.eq_false_or_eq_true (p a) with hpa | hpa
    · rw [filter_orderedInsert_pos r p a hpa _
        (fun b _ hpb => hcomp a b hpa hpb), ih, List.filter_cons, hpa]
      simp
    · rw [filter_orderedInsert_neg r p a hpa, ih, List.filter_cons, hpa]
      simp

/-- C3: the issue list is sorted by severity rank (`HIGH` before `MED`
before `LOW`) and, within a rank, by descending value with an absent value
counting as 0 (`issueLE` is exactly that order, via the code's sort key);
the sort is stable: for every sort key, the entries carrying that key
appear in the same order as the rules fired; and on metrics with
`TTFB = 1500` and `TBT = 700` the TTFB issue precedes the TBT issue even
though the TBT rule is evaluated later. -/
theorem C3_issue_order :
    (∀ m : Metrics, (build_issue_list m).Sorted issueLE) ∧
    (∀ (m : Metrics) (L : ℕ) (V : ℚ),
      (build_issue_list m).filter
          (fun i => levelOrder i.level = L ∧ issueVal i = V) =
        (raw_issue_list m).filter
          (fun i => levelOrder i.level = L ∧ issueVal i = V)) ∧
    build_issue_list exampleTTFBTBT =
      [{ level := "HIGH", metric := "TTFB",
         title := "TTFB 偏高（后端/网关/CDN 回源慢）",
         detail := "TTFB≈1.50s，先看 CDN 命中率/回源耗时/接口耗时/重定向链路。",
         value := some 1500, auditId := some "server-response-time",
         evidence := none },
       { level := "MED", metric := "TBT", title := "主线程阻塞（TBT 高）",
         detail := "TBT≈700ms，常见原因：bundle 大、初始化重、第三方脚本占用。",
         value := some 700, auditId := some "total-blocking-time",
         evidence := none }] := by
  refine ⟨fun m => List.sorted_insertionSort issueLE _, ?_, ?_⟩
  · intro m L V
    exact filter_insertionSort issueLE _ (fun a b ha hb => by
      simp only [decide_eq_true_eq] at ha hb
      exact Or.inr ⟨ha.1.trans hb.1.symm, le_of_eq (hb.2.trans ha.2.symm)⟩) _
  · have hfmt : fmt2 ((3 : ℚ) / 2) = "1.50" := by
      simp only [fmt2]
      rw [show round ((3 : ℚ) / 2 * 100) = (150 : ℤ) by
        rw [round_eq]; norm_num]
      rfl
    have hintpy : intPy (700 : ℚ) = 700 := by
      simp only [intPy]
      rw [if_pos (by norm_num)]
      norm_num
    have hintstr : intPyStr (700 : ℤ) = "700" := rfl
    have hraw : raw_issue_list exampleTTFBTBT =
        [{ level := "HIGH", metric := "TTFB",
           title := "TTFB 偏高（后端/网关/CDN 回源慢）",
           detail := "TTFB≈1.50s，先看 CDN 命中率/回源耗时/接口耗时/重定向链路。",
           value := some 1500, auditId := some "server-response-time",
           evidence := none },
         { level := "MED", metric := "TBT", title := "主线程阻塞（TBT 高）",
           detail := "TBT≈700ms，常见原因：bundle 大、初始化重、第三方脚本占用。",
           value := some 700, auditId := some "total-blocking-time",
           evidence := none }] := by
      simp only [raw_issue_list, exampleTTFBTBT, noFlags]
      norm_num [hintpy, hintstr, hfmt]
      exact ⟨rfl, rfl⟩
    rw [show build_issue_list exampleTTFBTBT =
      (raw_issue_list exampleTTFBTBT).insertionSort issueLE from rfl, hraw]
    rfl

/-! ### Support lemmas: counting successes and failures of the repeats -/

theorem filterMap_toOption_errOf_length (l : List (Except String RunRes)) :
    (l.filterMap Except.toOption).length + (l.filterMap errOf).length =
      l.length := by
  induction l with
  | nil => rfl
  | cons a t ih =>
    cases a with
    | ok v =>
      simp only [List.filterMap_cons, Except.toOption, errOf,
        List.length_cons]
      omega
    | error e =>
      simp only [List.filterMap_cons, Except.toOption, errOf,
        List.length_cons]
      omega

theorem filterMap_errOf_length_countP (l : List (Except String RunRes)) :
    (l.filterMap errOf).length = l.countP (fun o => !o.isOk) := by
  induction l with
  | nil => rfl
  | cons a t ih =>
    cases a <;>
      simp [List.filterMap_cons, errOf, List.countP_cons, Except.isOk,
        Except.toBool, ih]

theorem ifEmpty_ne (s : String) :
    (if s = "" then "unknown error" else s) ≠ "" := by
  split_ifs with h
  · decide
  · exact h

/-- C5: over any sequence of repeat outcomes, each failed repeat's error
string is collected without aborting the rest; if all `N` repeats fail the
result is the all-failed variant with a non-empty message and an
`allErrors` list of length exactly `N`; otherwise the result is the folded
variant whose error list has length exactly the number `k` of failures and
whose seven numeric metrics are the medians over the `N − k` successful
repeats. -/
theorem C5_repeat_runner :
    ∀ (runOnce : ℕ → Except String RunRes) (url device : String)
      (repeats : ℕ),
      (((List.range repeats).map runOnce).countP (fun o => !o.isOk) =
          repeats →
        run_url_repeats runOnce url device repeats =
            .failed url device
              (allFailedMsg (((List.range repeats).map runOnce).filterMap errOf))
              (((List.range repeats).map runOnce).filterMap errOf) ∧
          allFailedMsg
              (((List.range repeats).map runOnce).filterMap errOf) ≠ "" ∧
          (((List.range repeats).map runOnce).filterMap errOf).length =
            repeats) ∧
      (((List.range repeats).map runOnce).countP (fun o => !o.isOk) <
          repeats →
        ∃ fr, run_url_repeats runOnce url device repeats = .ok fr ∧
          fr.errors = ((List.range repeats).map runOnce).filterMap errOf ∧
          fr.errors.length =
            ((List.range repeats).map runOnce).countP (fun o => !o.isOk) ∧
          fr.repeats = repeats ∧
          (((List.range repeats).map runOnce).filterMap
              Except.toOption).length =
            repeats -
              ((List.range repeats).map runOnce).countP (fun o => !o.isOk) ∧
          fr.metrics.perfScore = median
            (((((List.range repeats).map runOnce).filterMap
                Except.toOption).filterMap
              (fun r => r.metrics.perfScore)).map some) ∧
          fr.metrics.lcp = median
            (((((List.range repeats).map runOnce).filterMap
                Except.toOption).filterMap
              (fun r => r.metrics.lcp)).map some) ∧
          fr.metrics.inp = median
            (((((List.range repeats).map runOnce).filterMap
                Except.toOption).filterMap
              (fun r => r.metrics.inp)).map some) ∧
          fr.metrics.cls = median
            (((((List.range repeats).map runOnce).filterMap
                Except.toOption).filterMap
              (fun r => r.metrics.cls)).map some) ∧
          fr.metrics.tbt = median
            (((((List.range repeats).map runOnce).filterMap
                Except.toOption).filterMap
              (fun r => r.metrics.tbt)).map some) ∧
          fr.metrics.fcp = median
            (((((List.range repeats).map runOnce).filterMap
                Except.toOption).filterMap
              (fun r => r.metrics.fcp)).map some) ∧
          fr.metrics.ttfb = median
            (((((List.range repeats).map runOnce).filterMap
                Except.toOption).filterMap
              (fun r => r.metrics.ttfb)).map some)) := by
  intro runOnce url device repeats
  have hsum := filterMap_toOption_errOf_length
    ((List.range repeats).map runOnce)
  have hcount := filterMap_errOf_length_countP
    ((List.range repeats).map runOnce)
  have hlen : ((List.range repeats).map runOnce).length = repeats := by simp
  constructor
  · intro hk
    have hrl : (((List.range repeats).map runOnce).filterMap
        Except.toOption).length = 0 := by omega
    have hruns : ((List.range repeats).map runOnce).filterMap
        Except.toOption = [] := List.length_eq_zero.mp hrl
    refine ⟨?_, ?_, ?_⟩
    · simp only [run_url_repeats, hruns]
    · unfold allFailedMsg
      exact ifEmpty_ne _
    · omega
  · intro hk
    have hrl : 0 < (((List.range repeats).map runOnce).filterMap
        Except.toOption).length := by omega
    rcases hR : ((List.range repeats).map runOnce).filterMap Except.toOption
      with _ | ⟨r0, rest⟩
    · rw [hR] at hrl
      simp at hrl
    · rw [hR] at hsum
      simp only [run_url_repeats, hR]
      refine ⟨_, rfl, rfl, hcount, rfl, by omega,
        rfl, rfl, rfl, rfl, rfl, rfl, rfl⟩

/-- C5 witness: the all-failed clause on an oracle where all three repeats
fail, and the folded clause on an oracle where exactly the second of three
repeats fails. -/
theorem C5_repeat_runner_witness :
    (run_url_repeats failOracle "u" "d" 3 =
        .failed "u" "d"
          (allFailedMsg (((List.range 3).map failOracle).filterMap errOf))
          (((List.range 3).map failOracle).filterMap errOf) ∧
      allFailedMsg (((List.range 3).map failOracle).filterMap errOf) ≠ "" ∧
      (((List.range 3).map failOracle).filterMap errOf).length = 3) ∧
    (∃ fr, run_url_repeats mixedOracle "u" "d" 3 = .ok fr ∧
      fr.errors.length = 1 ∧ fr.repeats = 3) := by
  constructor
  · exact (C5_repeat_runner failOracle "u" "d" 3).1 (by decide)
  · obtain ⟨fr, heq, _, hlen, hrep, _⟩ :=
      (C5_repeat_runner mixedOracle "u" "d" 3).2 (by decide)
    exact ⟨fr, heq, hlen.trans (by decide), hrep⟩

/-! ### Support lemmas: shape of the extractor's container accesses -/

theorem orEmptyObj_of_objOrFalsy {j : Json} (h : objOrFalsy j = true) :
    ∃ f, orEmptyObj j = .obj f := by
  by_cases hf : j.falsy
  · exact ⟨[], by unfold orEmptyObj; rw [if_pos hf]⟩
  · have hobj : j.isObjB = true := by
      simp only [objOrFalsy, Bool.or_eq_true] at h
      rcases h with h | h
      · exact absurd h hf
      · exact h
    cases j with
    | obj f => exact ⟨f, by unfold orEmptyObj; rw [if_neg hf]⟩
    | null => simp [Json.isObjB] at hobj
    | bool b => simp [Json.isObjB] at hobj
    | num q => simp [Json.isObjB] at hobj
    | str s => simp [Json.isObjB] at hobj
    | arr l => simp [Json.isObjB] at hobj

theorem getAudit_eq {kvs akvs : List (String × Json)}
    (ha : orEmptyObj (lookupJ kvs "audits") = .obj akvs) (id : String) :
    getAudit (.obj kvs) id = .ok (lookupJ akvs id) := by
  unfold getAudit
  show dictGet (orEmptyObj (lookupJ kvs "audits")) id = _
  rw [ha]
  rfl

theorem audit_numeric_ok {kvs akvs : List (String × Json)}
    (ha : orEmptyObj (lookupJ kvs "audits") = .obj akvs) (id : String)
    (hid : objOrFalsy (lookupJ akvs id) = true) :
    ∃ v, audit_numeric (.obj kvs) id = .ok v := by
  unfold audit_numeric
  rw [getAudit_eq ha]
  show ∃ v, (if (lookupJ akvs id).falsy then (pure none : Except String (Option ℚ))
      else do
        let v ← dictGet (lookupJ akvs id) "numericValue"
        pure (asNum v)) = .ok v
  by_cases hf : (lookupJ akvs id).falsy
  · exact ⟨none, by rw [if_pos hf]; rfl⟩
  · obtain ⟨f, hof⟩ := orEmptyObj_of_objOrFalsy hid
    have hj : lookupJ akvs id = .obj f := by
      unfold orEmptyObj at hof
      rw [if_neg hf] at hof
      exact hof
    rw [if_neg hf, hj]
    exact ⟨asNum (lookupJ f "numericValue"), rfl⟩

theorem audit_items_ok {kvs akvs : List (String × Json)}
    (ha : orEmptyObj (lookupJ kvs "audits") = .obj akvs) (id : String)
    (hid : objOrFalsy (lookupJ akvs id) = true)
    (hdet : detailsOk (lookupJ akvs id) = true) :
    ∃ v, audit_items (.obj kvs) id = .ok v := by
  unfold audit_items
  rw [getAudit_eq ha]
  obtain ⟨f, hof⟩ := orEmptyObj_of_objOrFalsy hid
  have hdet2 : objOrFalsy (lookupJ f "details") = true := by
    unfold detailsOk at hdet
    rw [hof] at hdet
    exact hdet
  obtain ⟨g, hog⟩ := orEmptyObj_of_objOrFalsy hdet2
  show ∃ v, (do
      let details ← dictGet (orEmptyObj (lookupJ akvs id)) "details"
      let items ← dictGet (orEmptyObj details) "items"
      match orEmptyArr items with
      | .arr l => (pure l : Except String (List Json))
      | _ => pure []) = .ok v
  rw [hof]
  show ∃ v, (do
      let items ← dictGet (orEmptyObj (lookupJ f "details")) "items"
      match orEmptyArr items with
      | .arr l => (pure l : Except String (List Json))
      | _ => pure []) = .ok v
  rw [hog]
  show ∃ v, (match orEmptyArr (lookupJ g "items") with
      | .arr l => (pure l : Except String (List Json))
      | _ => pure []) = .ok v
  cases orEmptyArr (lookupJ g "items") <;> exact ⟨_, rfl⟩

theorem isOk_bind {α β : Type} {x : Except String α} {f : α → Except String β}
    (a : α) (hx : x = .ok a) (hf : (f a).isOk = true) :
    (x >>= f).isOk = true := by
  rw [hx]
  exact hf

/-- C4 counterexample: the claim that the extractor never raises on any
nested key-value document fails: a report whose `audits` field is a truthy
non-dict (here the string `"x"`) makes `(lhr.get("audits") or {}).get(...)`
raise `AttributeError` on the first audit read. -/
theorem C4_counterexample :
    (extract_metrics (Json.obj [("audits", Json.str "x")])).isOk = false :=
  rfl

/-- C4 (amended): the extractor never raises on well-shaped reports — those
in which every container it dereferences (`audits`, each accessed audit
entry, the `details` of the item-bearing audits, `categories`, and
`categories.performance`) is a dict or absent/falsy; missing fields then
surface as absent values, as witnessed by the empty report, on which every
metric comes back absent, no element info, no blocking resources and no
flags. -/
theorem C4_extractor_total :
    (∀ lhr : Json, wellShaped lhr = true →
      (extract_metrics lhr).isOk = true) ∧
    extract_metrics (Json.obj []) = .ok
      { perfScore := none, lcp := none, inp := none, cls := none,
        tbt := none, fcp := none, ttfb := none, lcpElement := none,
        renderBlockingTop := [], flags := noFlags,
        auditEvidence :=
          [("bootup-time", .obj [("numericValue", .null)]),
           ("long-tasks", .obj [("items", .null)]),
           ("mainthread-work-breakdown", .obj [("numericValue", .null)]),
           ("unused-javascript", .obj [("overallSavingsMs", .null)]),
           ("render-blocking-resources", .obj [("items", .arr [])]),
           ("diagnostics", .obj [("details", .null)]),
           ("third-party-summary", .obj [("items", .null)])] } := by
  constructor
  · intro lhr h
    cases lhr with
    | null => simp [wellShaped] at h
    | bool b => simp [wellShaped] at h
    | num q => simp [wellShaped] at h
    | str s => simp [wellShaped] at h
    | arr l => simp [wellShaped] at h
    | obj kvs =>
      simp only [wellShaped, Bool.and_eq_true] at h
      obtain ⟨h1, h2⟩ := h
      rcases hA : orEmptyObj (lookupJ kvs "audits")
        with _ | _ | _ | _ | _ | akvs <;> rw [hA] at h1
      · simp at h1
      · simp at h1
      · simp at h1
      · simp at h1
      · simp at h1
      replace h1 : (((auditIdsNumeric ++ auditIdsItems ++ auditIdsFlat).all
            fun i => objOrFalsy (lookupJ akvs i)) &&
          auditIdsItems.all fun i => detailsOk (lookupJ akvs i)) = true := h1
      rcases hC : orEmptyObj (lookupJ kvs "categories")
        with _ | _ | _ | _ | _ | ckvs <;> rw [hC] at h2
      · simp at h2
      · simp at h2
      · simp at h2
      · simp at h2
      · simp at h2
      replace h2 : objOrFalsy (lookupJ ckvs "performance") = true := h2
      simp only [auditIdsNumeric, auditIdsItems, auditIdsFlat,
        List.cons_append, List.nil_append, List.all_cons, List.all_nil,
        Bool.and_eq_true, and_true] at h1
      obtain ⟨⟨hLCP, hCLS, hTBT, hFCP, hTTFB, hINP, hINPX, hLE, hRB, hLT,
        hUJ, hTP, hLZ, hPR, hBU, hMW, hDG⟩, dLE, dRB, dLT, dUJ, dTP⟩ := h1
      obtain ⟨v1, e1⟩ := audit_numeric_ok hA _ hLCP
      obtain ⟨v2, e2⟩ := audit_numeric_ok hA _ hCLS
      obtain ⟨v3, e3⟩ := audit_numeric_ok hA _ hTBT
      obtain ⟨v4, e4⟩ := audit_numeric_ok hA _ hFCP
      obtain ⟨v5, e5⟩ := audit_numeric_ok hA _ hTTFB
      obtain ⟨v6, e6⟩ := audit_numeric_ok hA _ hINP
      obtain ⟨v7, e7⟩ := audit_numeric_ok hA _ hINPX
      obtain ⟨vLE, eLE⟩ := audit_items_ok hA _ hLE dLE
      obtain ⟨vRB, eRB⟩ := audit_items_ok hA _ hRB dRB
      obtain ⟨fZ, hofZ⟩ := orEmptyObj_of_objOrFalsy hLZ
      obtain ⟨fP, hofP⟩ := orEmptyObj_of_objOrFalsy hPR
      obtain ⟨fB, hofB⟩ := orEmptyObj_of_objOrFalsy hBU
      obtain ⟨fL, hofL⟩ := orEmptyObj_of_objOrFalsy hLT
      obtain ⟨fM, hofM⟩ := orEmptyObj_of_objOrFalsy hMW
      obtain ⟨fU, hofU⟩ := orEmptyObj_of_objOrFalsy hUJ
      obtain ⟨fD, hofD⟩ := orEmptyObj_of_objOrFalsy hDG
      obtain ⟨fT, hofT⟩ := orEmptyObj_of_objOrFalsy hTP
      have dLT2 : objOrFalsy (lookupJ fL "details") = true := by
        unfold detailsOk at dLT
        rw [hofL] at dLT
        exact dLT
      obtain ⟨gL, hogL⟩ := orEmptyObj_of_objOrFalsy dLT2
      have dUJ2 : objOrFalsy (lookupJ fU "details") = true := by
        unfold detailsOk at dUJ
        rw [hofU] at dUJ
        exact dUJ
      obtain ⟨gU, hogU⟩ := orEmptyObj_of_objOrFalsy dUJ2
      have dTP2 : objOrFalsy (lookupJ fT "details") = true := by
        unfold detailsOk at dTP
        rw [hofT] at dTP
        exact dTP
      obtain ⟨gT, hogT⟩ := orEmptyObj_of_objOrFalsy dTP2
      obtain ⟨pf, hpf⟩ := orEmptyObj_of_objOrFalsy h2
      unfold extract_metrics
      refine isOk_bind v1 e1 ?_
      refine isOk_bind v2 e2 ?_
      refine isOk_bind v3 e3 ?_
      refine isOk_bind v4 e4 ?_
      refine isOk_bind v5 e5 ?_
      refine isOk_bind v6 e6 ?_
      have einp : ∃ w, inp_fallback (.obj kvs) v6 = .ok w := by
        cases v6 with
        | some v => exact ⟨some v, rfl⟩
        | none => exact ⟨v7, e7⟩
      obtain ⟨w, ew⟩ := einp
      refine isOk_bind w ew ?_
      refine isOk_bind (lookupJ kvs "categories") rfl ?_
      refine isOk_bind (lookupJ ckvs "performance") (by rw [hC]; rfl) ?_
      refine isOk_bind (lookupJ pf "score") (by rw [hpf]; rfl) ?_
      refine isOk_bind vLE eLE ?_
      refine isOk_bind vRB eRB ?_
      refine isOk_bind _ (getAudit_eq hA "lcp-lazy-loaded") ?_
      refine isOk_bind _ (getAudit_eq hA "prioritize-lcp-image") ?_
      refine isOk_bind _ (getAudit_eq hA "bootup-time") ?_
      refine isOk_bind _ (getAudit_eq hA "long-tasks") ?_
      refine isOk_bind _ (getAudit_eq hA "mainthread-work-breakdown") ?_
      refine isOk_bind _ (getAudit_eq hA "unused-javascript") ?_
      refine isOk_bind _ (getAudit_eq hA "diagnostics") ?_
      refine isOk_bind _ (getAudit_eq hA "third-party-summary") ?_
      refine isOk_bind (lookupJ fB "numericValue") (by rw [hofB]; rfl) ?_
      refine isOk_bind (lookupJ fL "details") (by rw [hofL]; rfl) ?_
      refine isOk_bind (lookupJ gL "items") (by rw [hogL]; rfl) ?_
      refine isOk_bind (lookupJ fM "numericValue") (by rw [hofM]; rfl) ?_
      refine isOk_bind (lookupJ fU "details") (by rw [hofU]; rfl) ?_
      refine isOk_bind (lookupJ gU "overallSavingsMs") (by rw [hogU]; rfl) ?_
      refine isOk_bind (lookupJ fD "details") (by rw [hofD]; rfl) ?_
      refine isOk_bind (lookupJ fT "details") (by rw [hofT]; rfl) ?_
      refine isOk_bind (lookupJ gT "items") (by rw [hogT]; rfl) ?_
      refine isOk_bind (lookupJ fZ "score") (by rw [hofZ]; rfl) ?_
      refine isOk_bind (lookupJ fP "score") (by rw [hofP]; rfl) ?_
      rfl
  · rfl

/-- C4 witness: the empty report is well-shaped and the extractor succeeds
on it. -/
theorem C4_extractor_total_witness :
    (extract_metrics (Json.obj [])).isOk = true :=
  C4_extractor_total.1 (Json.obj []) rfl

end LCP111
